import Mathlib

/-!
# Verification of the pulse-earn payment service

A shallow embedding of `src/services/paymentService.ts` (class `PaymentService`).
JavaScript numbers are modelled as `ℚ`; user point balances, which the store keeps
as integers, as `ℤ`.  Every external call (Supabase queries, `SettingsService`,
`ProfileService`, gateway HTTP round trips) is resolved through an explicit
environment record holding that call's outcome, so one Lean function application
corresponds to one sequential execution of the TypeScript function under a fixed
schedule of call results.  The uniform `{data, error}` result shape is rendered
as `Except String α`.
-/

namespace PaymentService

instance {ε α : Type} [DecidableEq ε] [DecidableEq α] : DecidableEq (Except ε α) :=
  fun a b =>
    match a, b with
    | .ok x, .ok y =>
      if h : x = y then .isTrue (by rw [h]) else .isFalse (fun hh => by cases hh; exact h rfl)
    | .error x, .error y =>
      if h : x = y then .isTrue (by rw [h]) else .isFalse (fun hh => by cases hh; exact h rfl)
    | .ok _, .error _ => .isFalse (fun hh => by cases hh)
    | .error _, .ok _ => .isFalse (fun hh => by cases hh)

/-- JavaScript `Math.round`: `⌊x + 1/2⌋` (halves round toward positive infinity). -/
def jsRound (x : ℚ) : ℤ := ⌊x + 1/2⌋

/-- JavaScript `v || d` for an optionally-present string: `undefined`/`null` and
the empty string are falsy. -/
def jsOrStr (v : Option String) (d : String) : String :=
  match v with
  | some s => if s = "" then d else s
  | none => d

/-- JavaScript `v || d` for an optionally-present number: `undefined`/`null` and
`0` are falsy. -/
def jsOrNum (v : Option ℚ) (d : ℚ) : ℚ :=
  match v with
  | some q => if q = 0 then d else q
  | none => d

/-- A value stored in a transaction's free-form `metadata` JSON object. -/
inductive MetaVal where
  | num : ℚ → MetaVal
  | str : String → MetaVal
  deriving DecidableEq, Repr

/-- The `metadata` JSON object, as an association list. -/
abbrev Metadata := List (String × MetaVal)

/-- Lookup of a metadata key. -/
def metaGet (m : Metadata) (k : String) : Option MetaVal :=
  (m.find? (fun p => p.1 = k)).map (·.2)

/-- The JavaScript spread-and-override `{...m, k: v}`: all entries of `m`
with key `k` (re)bound to `v`. -/
def metaSet (m : Metadata) (k : String) (v : MetaVal) : Metadata :=
  m.filter (fun p => p.1 ≠ k) ++ [(k, v)]

/-- A row of the `transactions` table, restricted to the columns this service
reads or writes. -/
structure TxRow where
  id : String
  user_id : String
  promoted_poll_id : Option String
  amount : ℚ
  currency : String
  original_amount : ℚ
  original_currency : String
  payment_method : String
  status : String
  gateway_transaction_id : Option String
  stripe_payment_intent_id : Option String
  metadata : Metadata
  deriving DecidableEq, Repr

/-- `supabase.from('transactions').update(f).eq('id', id)`: apply `f` to every
row whose `id` matches. -/
def updateRows (rows : List TxRow) (id : String) (f : TxRow → TxRow) : List TxRow :=
  rows.map (fun r => if r.id = id then f r else r)

/-- A transaction status is terminal when it is `completed`, `failed` or
`refunded` (the literal list tested at line 320 of `paymentService.ts`). -/
def isTerminal (s : String) : Bool :=
  s = "completed" || s = "failed" || s = "refunded"

/-! ## `convertAmount` (lines 704-736)

The single external call is `SettingsService.getExchangeRate(from, to)`,
whose `{data, error}` outcome is the environment. -/

/-- Environment of one `convertAmount` execution: the exchange-rate lookup's
outcome (`.error e` when the lookup reports an error, `.ok none` when it
succeeds with no rate). -/
structure ConvertEnv where
  rate : Except String (Option ℚ)
  deriving Repr

/-- Result of `convertAmount` together with whether the rate lookup was issued. -/
structure ConvertRun where
  result : Except String ℚ
  lookedUp : Bool
  deriving DecidableEq, Repr

/-- `PaymentService.convertAmount(amount, fromCurrency, toCurrency)`:
identity without a lookup when the currencies are equal; otherwise fetch the
rate, propagate a lookup error, report "Exchange rate not found" on a falsy
rate (`null`, `undefined` or `0`), and multiply otherwise. -/
def convertAmount (env : ConvertEnv) (amount : ℚ)
    (fromCurrency toCurrency : String) : ConvertRun :=
  if fromCurrency = toCurrency then
    ⟨.ok amount, false⟩
  else
    match env.rate with
    | .error e => ⟨.error e, true⟩
    | .ok none =>
      ⟨.error ("Exchange rate not found for " ++ fromCurrency ++ " to " ++ toCurrency), true⟩
    | .ok (some r) =>
      if r = 0 then
        ⟨.error ("Exchange rate not found for " ++ fromCurrency ++ " to " ++ toCurrency), true⟩
      else
        ⟨.ok (amount * r), true⟩

/-! ## `processWalletPayment` (lines 129-219)

The store state visible to this function is the paying user's point balance
(an integer column) and the list of `transactions` rows.  External call
outcomes are an environment record; the profile fetch, when it finds a
profile, reports the state's current balance so that the fetched
`profile.points` and the mutated balance are the same quantity. -/

/-- One mutation call issued by `processWalletPayment`, in program order:
a `ProfileService.updateUserPoints(userId, delta)` call, or the
`transactions` insert. -/
inductive Eff where
  | updatePoints : ℤ → Eff
  | insertTx : TxRow → Eff
  deriving DecidableEq, Repr

/-- Environment of one `processWalletPayment` execution. -/
structure WalletEnv where
  /-- `settings?.points_to_usd_conversion` from
  `SettingsService.getSettings('promoted_polls')` (the call's error channel is
  discarded by the code); `none` when the settings row or field is absent. -/
  settingsConv : Option ℚ
  /-- Outcome of `SettingsService.getExchangeRate(currency, 'USD')`, consulted
  only when `currency !== 'USD'`. -/
  rate : Except String (Option ℚ)
  /-- Outcome of `ProfileService.fetchProfileById(userId)`: an error, or
  `ok found` where `found` says whether a profile row exists (its `points`
  being the current balance). -/
  profileRes : Except String Bool
  /-- Error reported by the debit call `updateUserPoints(userId, -pointsNeeded)`;
  `none` on success. -/
  debitError : Option String
  /-- Error reported by the `transactions` insert; `none` on success. -/
  insertError : Option String
  /-- Error reported by the compensating credit call
  `updateUserPoints(userId, pointsNeeded)`; `none` on success.  The code
  discards this outcome. -/
  refundError : Option String
  /-- The `id` the store assigns to an inserted row. -/
  newTxId : String
  deriving Repr

/-- Final state and result of one `processWalletPayment` execution. -/
structure WalletRun where
  result : Except String TxRow
  /-- The user's point balance after the execution. -/
  points : ℤ
  /-- The `transactions` rows after the execution. -/
  rows : List TxRow
  /-- The mutation calls issued, in order. -/
  effs : List Eff
  deriving DecidableEq, Repr

/-- Lines 140-152: `amountInUSD`, starting from `amount`.  When
`currency !== 'USD'` the exchange rate is fetched; a lookup error aborts; a
truthy rate multiplies; a falsy rate (`null` or `0`) silently leaves the
amount unchanged. -/
def walletAmountInUSD (rate : Except String (Option ℚ)) (amount : ℚ)
    (currency : String) : Except String ℚ :=
  if currency = "USD" then .ok amount
  else
    match rate with
    | .error e => .error e
    | .ok none => .ok amount
    | .ok (some r) => .ok (if r = 0 then amount else amount * r)

/-- `PaymentService.processWalletPayment(userId, amount, promotedPollId, currency)`
run against balance `points0` and rows `rows0` under environment `env`. -/
def processWalletPayment (env : WalletEnv) (userId : String) (amount : ℚ)
    (promotedPollId : Option String) (currency : String)
    (points0 : ℤ) (rows0 : List TxRow) : WalletRun :=
  let pointsToUsdConversion := jsOrNum env.settingsConv 100
  match walletAmountInUSD env.rate amount currency with
  | .error e => ⟨.error e, points0, rows0, []⟩
  | .ok amountInUSD =>
    let pointsNeeded : ℤ := jsRound (amountInUSD * pointsToUsdConversion)
    match env.profileRes with
    | .error e => ⟨.error e, points0, rows0, []⟩
    | .ok false => ⟨.error "User profile not found", points0, rows0, []⟩
    | .ok true =>
      if points0 < pointsNeeded then
        ⟨.error ("Insufficient points. You need " ++ toString pointsNeeded ++
            " points (" ++ toString points0 ++ " available)."),
          points0, rows0, []⟩
      else
        match env.debitError with
        | some e => ⟨.error e, points0, rows0, [.updatePoints (-pointsNeeded)]⟩
        | none =>
          let row : TxRow :=
            { id := env.newTxId
              user_id := userId
              promoted_poll_id := promotedPollId
              amount := amountInUSD
              currency := "USD"
              original_amount := amount
              original_currency := currency
              payment_method := "wallet"
              status := "completed"
              gateway_transaction_id := none
              stripe_payment_intent_id := none
              metadata :=
                [("points_used", .num (pointsNeeded : ℚ)),
                 ("conversion_rate", .num pointsToUsdConversion),
                 ("exchange_rate",
                   .num (if currency ≠ "USD" then amountInUSD / amount else 1))] }
          match env.insertError with
          | some e =>
            ⟨.error e,
              (if env.refundError = none then points0 else points0 - pointsNeeded),
              rows0,
              [.updatePoints (-pointsNeeded), .updatePoints pointsNeeded]⟩
          | none =>
            ⟨.ok row, points0 - pointsNeeded, rows0 ++ [row],
              [.updatePoints (-pointsNeeded), .insertTx row]⟩

/-! ## `createTransaction` (lines 224-272) -/

/-- The `TransactionCreateRequest` argument of `createTransaction`. -/
structure TxRequest where
  amount : ℚ
  /-- `currency` is optional; the code defaults it with `|| 'USD'`. -/
  currency : Option String
  payment_method : String
  promoted_poll_id : Option String
  /-- `metadata` is optional; the code defaults it with `|| {}`. -/
  metadata : Option Metadata
  deriving Repr

/-- Environment of one `createTransaction` execution. -/
structure CreateTxEnv where
  /-- `profile?.currency` from `ProfileService.fetchProfileById(userId)` (the
  call's error channel is discarded); `none` when the profile or field is
  absent. -/
  profileCurrency : Option String
  /-- `getExchangeRate(originalCurrency, userCurrency)` data (the error channel
  is discarded), consulted only when the currencies differ. -/
  rate : Option ℚ
  /-- Error reported by the `transactions` insert; `none` on success. -/
  insertError : Option String
  /-- The `id` the store assigns to the inserted row. -/
  newTxId : String
  deriving Repr

/-- `PaymentService.createTransaction(userId, transactionData)` run against
rows `rows0` under environment `env`; returns the rows after the call and the
`{data, error}` result.  Note the source's field placement: the request value
goes under `amount`/`currency`, the value converted into the user's preferred
currency under `original_amount`, and the user's preferred currency under
`original_currency` (the local `originalCurrency` variable is computed but
never stored). -/
def createTransaction (env : CreateTxEnv) (userId : String) (req : TxRequest)
    (rows0 : List TxRow) : List TxRow × Except String TxRow :=
  let userCurrency := jsOrStr env.profileCurrency "USD"
  let originalCurrency := jsOrStr req.currency "USD"
  let originalAmount :=
    if originalCurrency ≠ userCurrency then
      match env.rate with
      | some r => if r = 0 then req.amount else req.amount * r
      | none => req.amount
    else req.amount
  match env.insertError with
  | some e => (rows0, .error e)
  | none =>
    let row : TxRow :=
      { id := env.newTxId
        user_id := userId
        promoted_poll_id := req.promoted_poll_id
        amount := req.amount
        currency := jsOrStr req.currency "USD"
        original_amount := originalAmount
        original_currency := userCurrency
        payment_method := req.payment_method
        status := "pending"
        gateway_transaction_id := none
        stripe_payment_intent_id := none
        metadata := req.metadata.getD [] }
    (rows0 ++ [row], .ok row)

/-! ## `updateTransactionStatus` (lines 277-342)

The `update ... eq('id', transactionId) ... limit(1)` query's row outcome is
environment-resolved (it races the webhook's own update and row-level security,
which is why the code handles a zero-row result), as is the follow-up
`maybeSingle` re-read. -/

/-- Environment of one `updateTransactionStatus` execution. -/
structure UpdateStatusEnv where
  /-- Outcome of the update query: an error, or the (at most one) updated rows
  it returned. -/
  updResult : Except String (List TxRow)
  /-- Outcome of the `maybeSingle` re-read issued on a zero-row update. -/
  reread : Except String (Option TxRow)
  deriving Repr

/-- `PaymentService.updateTransactionStatus(transactionId, status,
gatewayTransactionId)`: propagate an update error; on a zero-row update,
re-read the row and treat an existing row in a terminal status as success,
otherwise report "Transaction not found"; on a matched update return the
updated row. -/
def updateTransactionStatus (env : UpdateStatusEnv) (transactionId : String)
    (status : String) (gatewayTransactionId : Option String) :
    Except String TxRow :=
  match env.updResult with
  | .error e => .error e
  | .ok [] =>
    match env.reread with
    | .error e => .error e
    | .ok (some existingTransaction) =>
      if isTerminal existingTransaction.status then .ok existingTransaction
      else .error "Transaction not found"
    | .ok none => .error "Transaction not found"
  | .ok (updatedTransaction :: _) => .ok updatedTransaction

/-! ## `getAvailablePaymentMethods` (lines 72-124) -/

/-- The optional `config` JSON of a payment method, restricted to the fields
this service reads. -/
structure PMConfig where
  supported_currencies : Option (List String)
  default_currency : Option String
  deriving DecidableEq, Repr

/-- A row of the `payment_methods` table. -/
structure PaymentMethod where
  id : String
  name : String
  type : String
  config : Option PMConfig
  deriving DecidableEq, Repr

/-- Environment of one `getAvailablePaymentMethods` execution. -/
structure AvailEnv where
  /-- Outcome of `SettingsService.getPaymentGatewaySettings(countryCode)`:
  the method types enabled for the country (`ok none` = null data). -/
  enabled : Except String (Option (List String))
  /-- Outcome of `this.getPaymentMethods()`: all active methods, name-ordered. -/
  allMethods : Except String (List PaymentMethod)
  deriving Repr

/-- The currency filter applied per method (lines 98-114): a declared
`supported_currencies` array decides by membership; otherwise a truthy
`default_currency` decides by equality; otherwise the method is kept
(universal-support fallback). -/
def supportsCurrency (currency : String) (m : PaymentMethod) : Bool :=
  match m.config.bind (fun c => c.supported_currencies) with
  | some scs => scs.contains currency
  | none =>
    match m.config.bind (fun c => c.default_currency) with
    | some dc => if dc = "" then true else dc = currency
    | none => true

/-- `PaymentService.getAvailablePaymentMethods(countryCode, currency)`:
propagate either lookup's error; keep the active methods whose type is
country-enabled; when a truthy currency is given, further filter by
`supportsCurrency`. -/
def getAvailablePaymentMethods (env : AvailEnv) (countryCode : Option String)
    (currency : Option String) : Except String (List PaymentMethod) :=
  match env.enabled with
  | .error e => .error e
  | .ok enabledMethods =>
    match env.allMethods with
    | .error e => .error e
    | .ok allMethods =>
      let availableMethods := allMethods.filter (fun m =>
        match enabledMethods with
        | some l => l.contains m.type
        | none => false)
      match currency with
      | some c =>
        if c = "" then .ok availableMethods
        else .ok (availableMethods.filter (supportsCurrency c))
      | none => .ok availableMethods

/-! ## Gateway initiation: `initializeStripePayment` (lines 467-580) and
`initializePaystackPayment` (lines 586-699) -/

/-- Outcome of the gateway-initiation HTTP round trip (`fetch` + `json`). -/
inductive FetchOutcome where
  /-- `fetch` or a `.json()` call rejected with this error message. -/
  | netFail : String → FetchOutcome
  /-- `response.ok` is false; the payload's `error` field (absent = `none`). -/
  | notOk : Option String → FetchOutcome
  /-- An OK response carrying the optional secret/URL field
  (`clientSecret` / `authorizationUrl`) and the reference field
  (`paymentIntentId` / `reference`). -/
  | ok : Option String → String → FetchOutcome
  deriving Repr

/-- Environment of one gateway-initiation execution. -/
structure GatewayEnv where
  /-- `profile?.currency` from the function's own profile fetch; the resulting
  `userCurrency` local is dead in both functions. -/
  profileCurrency : Option String
  /-- `getExchangeRate(currency, 'USD')` resp. `getExchangeRate(currency, 'NGN')`
  data (error channel discarded), consulted only when the request currency is
  not the gateway's. -/
  rate : Option ℚ
  /-- Environment of the nested `this.createTransaction` call. -/
  ctx : CreateTxEnv
  /-- Outcome of the HTTP round trip. -/
  fetch : FetchOutcome
  deriving Repr

/-- The `data` payload of a successful `initializeStripePayment`. -/
structure StripeInitData where
  clientSecret : String
  transactionId : String
  deriving DecidableEq, Repr

/-- The `data` payload of a successful `initializePaystackPayment`. -/
structure PaystackInitData where
  authorizationUrl : String
  transactionId : String
  deriving DecidableEq, Repr

/-- The failure handler shared by both gateway functions (lines 558-573 and
677-692): set the created transaction's row to status `failed` with the error
text spread into the created row's metadata under `error`. -/
def markFailed (rows : List TxRow) (tx : TxRow) (msg : String) : List TxRow :=
  updateRows rows tx.id (fun r =>
    { r with status := "failed", metadata := metaSet tx.metadata "error" (.str msg) })

/-- Gateway conversion of `amount` into the gateway currency (lines 482-489 and
601-608): when the request currency differs, multiply by a truthy fetched rate,
else keep the amount. -/
def gatewayAmount (rate : Option ℚ) (amount : ℚ) (currency gatewayCurrency : String) : ℚ :=
  if currency ≠ gatewayCurrency then
    match rate with
    | some r => if r = 0 then amount else amount * r
    | none => amount
  else amount

/-- `PaymentService.initializeStripePayment(userId, amount, promotedPollId,
currency)` run against rows `rows0` under environment `env`.  (The
`!transaction` guard at line 507 is unreachable here: a non-error
`createTransaction` always carries its row.) -/
def initializeStripePayment (env : GatewayEnv) (userId : String) (amount : ℚ)
    (promotedPollId : Option String) (currency : String) (rows0 : List TxRow) :
    List TxRow × Except String StripeInitData :=
  let usdAmount := gatewayAmount env.rate amount currency "USD"
  match createTransaction env.ctx userId
      { amount := usdAmount
        currency := some "USD"
        payment_method := "stripe"
        promoted_poll_id := promotedPollId
        metadata := some [("original_amount", .num amount),
                          ("original_currency", .str currency)] }
      rows0 with
  | (rows1, .error e) => (rows1, .error e)
  | (rows1, .ok transaction) =>
    match env.fetch with
    | .netFail msg => (markFailed rows1 transaction msg, .error msg)
    | .notOk errField =>
      let msg := jsOrStr errField "Failed to create payment intent"
      (markFailed rows1 transaction msg, .error msg)
    | .ok clientSecret paymentIntentId =>
      match clientSecret with
      | some cs =>
        if cs = "" then
          let msg := "No client secret returned from payment intent creation"
          (markFailed rows1 transaction msg, .error msg)
        else
          (updateRows rows1 transaction.id (fun r =>
              { r with stripe_payment_intent_id := some paymentIntentId
                       metadata := metaSet transaction.metadata "payment_intent_id"
                         (.str paymentIntentId) }),
            .ok ⟨cs, transaction.id⟩)
      | none =>
        let msg := "No client secret returned from payment intent creation"
        (markFailed rows1 transaction msg, .error msg)

/-- `PaymentService.initializePaystackPayment(userId, amount, promotedPollId,
currency)` run against rows `rows0` under environment `env`. -/
def initializePaystackPayment (env : GatewayEnv) (userId : String) (amount : ℚ)
    (promotedPollId : Option String) (currency : String) (rows0 : List TxRow) :
    List TxRow × Except String PaystackInitData :=
  let ngnAmount := gatewayAmount env.rate amount currency "NGN"
  match createTransaction env.ctx userId
      { amount := ngnAmount
        currency := some "NGN"
        payment_method := "paystack"
        promoted_poll_id := promotedPollId
        metadata := some [("original_amount", .num amount),
                          ("original_currency", .str currency)] }
      rows0 with
  | (rows1, .error e) => (rows1, .error e)
  | (rows1, .ok transaction) =>
    match env.fetch with
    | .netFail msg => (markFailed rows1 transaction msg, .error msg)
    | .notOk errField =>
      let msg := jsOrStr errField "Failed to initialize Paystack payment"
      (markFailed rows1 transaction msg, .error msg)
    | .ok authorizationUrl reference =>
      match authorizationUrl with
      | some url =>
        if url = "" then
          let msg := "No authorization URL returned from Paystack"
          (markFailed rows1 transaction msg, .error msg)
        else
          (updateRows rows1 transaction.id (fun r =>
              { r with gateway_transaction_id := some reference
                       metadata := metaSet transaction.metadata "paystack_reference"
                         (.str reference) }),
            .ok ⟨url, transaction.id⟩)
      | none =>
        let msg := "No authorization URL returned from Paystack"
        (markFailed rows1 transaction msg, .error msg)

/-- The currency-support condition as the specification words it: the method's
config declares the currency in `supported_currencies`; or declares no
`supported_currencies` but a `default_currency` equal to it; or declares
neither.  Stated over the same data as `supportsCurrency` for comparison. -/
def specSupportsCurrency (currency : String) (m : PaymentMethod) : Prop :=
  (∃ scs, m.config.bind (fun c => c.supported_currencies) = some scs ∧ currency ∈ scs) ∨
  (m.config.bind (fun c => c.supported_currencies) = none ∧
    m.config.bind (fun c => c.default_currency) = some currency) ∨
  (m.config.bind (fun c => c.supported_currencies) = none ∧
    m.config.bind (fun c => c.default_currency) = none)

/-- The failure outcome the spec describes for gateway initiation: the result
is the error `msg`, and the store holds the just-created transaction row (the
one with the fresh id `txId`) in status `failed` with `msg` recorded under the
`error` metadata key. -/
def failsMarked {α : Type} (out : List TxRow × Except String α)
    (rows0 : List TxRow) (txId msg : String) : Prop :=
  out.2 = .error msg ∧
  ∃ row, out.1 = rows0 ++ [row] ∧ row.id = txId ∧ row.status = "failed" ∧
    metaGet row.metadata "error" = some (.str msg)

/-! ## Helper lemmas -/

theorem updateRows_of_not_mem (rows : List TxRow) (id : String) (f : TxRow → TxRow)
    (h : ∀ r ∈ rows, r.id ≠ id) : updateRows rows id f = rows := by
  induction rows with
  | nil => rfl
  | cons a l ih =>
    have ha : a.id ≠ id := h a (List.mem_cons_self a l)
    have hl : ∀ r ∈ l, r.id ≠ id := fun r hr => h r (List.mem_cons_of_mem a hr)
    simp [updateRows] at ih ⊢
    exact ⟨fun hc => absurd hc ha, ih hl⟩

theorem updateRows_append_singleton (rows : List TxRow) (t : TxRow) (f : TxRow → TxRow)
    (h : ∀ r ∈ rows, r.id ≠ t.id) :
    updateRows (rows ++ [t]) t.id f = rows ++ [f t] := by
  simp only [updateRows, List.map_append]
  have h1 : (rows.map (fun r => if r.id = t.id then f r else r)) = rows :=
    updateRows_of_not_mem rows t.id f h
  simp [updateRows] at h1
  simp [h1]

theorem jsRound_two_hundred : jsRound ((2 : ℚ) * jsOrNum (some 100) 100) = 200 := by
  norm_num [jsRound, jsOrNum]

theorem jsRound_seven_hundred : jsRound ((7 : ℚ) * jsOrNum (some 100) 100) = 700 := by
  norm_num [jsRound, jsOrNum]

theorem metaGet_metaSet (m : Metadata) (k : String) (v : MetaVal) :
    metaGet (metaSet m k v) k = some v := by
  induction m with
  | nil => simp [metaGet, metaSet]
  | cons a l ih =>
    by_cases h : a.1 = k
    · simp only [metaSet, List.filter] at ih ⊢
      simpa [h] using ih
    · simp only [metaSet, metaGet] at ih ⊢
      simp [List.find?, h, ih]

theorem createTransaction_insert_ok (env : CreateTxEnv) (uid : String)
    (req : TxRequest) (rows0 : List TxRow) (h : env.insertError = none) :
    ∃ row, createTransaction env uid req rows0 = (rows0 ++ [row], .ok row) ∧
      row.id = env.newTxId := by
  simp only [createTransaction, h]
  exact ⟨_, rfl, rfl⟩

theorem failsMarked_of_markFailed {α : Type} (rows0 : List TxRow) (row : TxRow)
    (msg : String) (hfresh : ∀ r ∈ rows0, r.id ≠ row.id) :
    failsMarked (markFailed (rows0 ++ [row]) row msg, (.error msg : Except String α))
      rows0 row.id msg := by
  have hmk : markFailed (rows0 ++ [row]) row msg =
      rows0 ++
        [{ row with
            status := "failed"
            metadata := metaSet row.metadata "error" (.str msg) }] := by
    unfold markFailed
    exact updateRows_append_singleton rows0 row _ hfresh
  exact ⟨rfl, _, hmk, rfl, rfl, metaGet_metaSet _ _ _⟩

theorem supportsCurrency_iff_spec (c : String) (m : PaymentMethod)
    (hwf : m.config.bind (fun cf => cf.default_currency) ≠ some "") :
    supportsCurrency c m = true ↔ specSupportsCurrency c m := by
  cases hsc : m.config.bind (fun cf => cf.supported_currencies) with
  | some scs =>
    simp [supportsCurrency, specSupportsCurrency, hsc]
  | none =>
    cases hdc : m.config.bind (fun cf => cf.default_currency) with
    | some d =>
      have hd : ¬ d = "" := fun h => hwf (by rw [hdc, h])
      simp [supportsCurrency, specSupportsCurrency, hsc, hdc, hd]
    | none =>
      simp [supportsCurrency, specSupportsCurrency, hsc, hdc]

/-! # Claim theorems -/

/-- C8: for every amount `x` and currency `c`, `convertAmount(x, c, c)` returns
success with exactly `x` and performs no rate lookup; for distinct currencies
whose exchange-rate lookup finds no rate, `convertAmount` returns an error
rather than a value. -/
theorem convertAmount_identity_and_missing_rate :
    (∀ (env : ConvertEnv) (x : ℚ) (c : String),
      convertAmount env x c c = ⟨.ok x, false⟩) ∧
    (∀ (x : ℚ) (f t : String), f ≠ t →
      (convertAmount ⟨.ok none⟩ x f t).result =
        .error ("Exchange rate not found for " ++ f ++ " to " ++ t)) := by
  constructor
  · intro env x c
    simp [convertAmount]
  · intro x f t hft
    simp [convertAmount, hft]

/-- Witness for `convertAmount_identity_and_missing_rate` at `x = 5`,
`c = "EUR"`, `f = "EUR"`, `t = "USD"`. -/
theorem convertAmount_identity_and_missing_rate_witness :
    convertAmount ⟨.ok none⟩ 5 "EUR" "EUR" = ⟨.ok 5, false⟩ ∧
    (convertAmount ⟨.ok none⟩ 5 "EUR" "USD").result =
      .error ("Exchange rate not found for " ++ "EUR" ++ " to " ++ "USD") :=
  ⟨convertAmount_identity_and_missing_rate.1 ⟨.ok none⟩ 5 "EUR",
   convertAmount_identity_and_missing_rate.2 5 "EUR" "USD" (by decide)⟩

/-- C9: with amount 50, currency `'EUR'`, `points_to_usd_conversion` 100 and
EUR→USD rate 11/10, `processWalletPayment` computes `amountInUSD = 55` and
`pointsNeeded = round(55 * 100) = 5500`; the inserted row records amount 55
and 5500 points used, and the balance drops by 5500. -/
theorem processWalletPayment_eur_scenario :
    walletAmountInUSD (.ok (some (11/10))) 50 "EUR" = .ok 55 ∧
    jsRound ((55 : ℚ) * jsOrNum (some 100) 100) = 5500 ∧
    ((processWalletPayment ⟨some 100, .ok (some (11/10)), .ok true, none, none, none, "t1"⟩
        "u1" 50 none "EUR" 5500 []).rows.map
          (fun r => (r.amount, metaGet r.metadata "points_used")))
      = [(55, some (.num 5500))] ∧
    (processWalletPayment ⟨some 100, .ok (some (11/10)), .ok true, none, none, none, "t1"⟩
        "u1" 50 none "EUR" 5500 []).points = 0 := by
  have husd : (50 : ℚ) * (11/10) = 55 := by norm_num
  have hconv : jsOrNum (some (100 : ℚ)) 100 = 100 := by norm_num [jsOrNum]
  have hrnd : jsRound ((55 : ℚ) * 100) = 5500 := by norm_num [jsRound]
  have hW : walletAmountInUSD (.ok (some (11/10))) 50 "EUR" = .ok 55 := by
    simp [walletAmountInUSD, husd]
  refine ⟨hW, by rw [hconv]; exact hrnd, ?_, ?_⟩ <;>
    simp [processWalletPayment, hW, hconv, hrnd, metaGet, List.find?]

/-- C10: when the exchange-rate lookup reports no error but also no rate,
`processWalletPayment` does not fail: `amountInUSD` silently stays equal to
the input amount (1:1 conversion) and, with sufficient points and a clean
debit and insert, the call succeeds with a row of that amount — unlike
`convertAmount`, which reports "Exchange rate not found" in the same
situation. -/
theorem processWalletPayment_missing_rate_one_to_one :
    (∀ (amount : ℚ) (currency : String), currency ≠ "USD" →
      walletAmountInUSD (.ok none) amount currency = .ok amount) ∧
    (∀ (env : WalletEnv) (uid : String) (amount : ℚ) (pid : Option String)
        (currency : String) (points0 : ℤ) (rows0 : List TxRow),
      currency ≠ "USD" → env.rate = .ok none → env.profileRes = .ok true →
      env.debitError = none → env.insertError = none →
      ¬ points0 < jsRound (amount * jsOrNum env.settingsConv 100) →
      ((processWalletPayment env uid amount pid currency points0 rows0).result.toOption.map
          (fun r => r.amount)) = some amount) ∧
    (∀ (x : ℚ) (f t : String), f ≠ t →
      (convertAmount ⟨.ok none⟩ x f t).result =
        .error ("Exchange rate not found for " ++ f ++ " to " ++ t)) := by
  refine ⟨?_, ?_, ?_⟩
  · intro amount currency hc
    simp [walletAmountInUSD, hc]
  · intro env uid amount pid currency points0 rows0 hc hr hp hd hi hpts
    simp [processWalletPayment, walletAmountInUSD, hc, hr, hp, hd, hi, hpts]
    exact ⟨_, rfl, rfl⟩
  · intro x f t hft
    simp [convertAmount, hft]

/-- Witness for `processWalletPayment_missing_rate_one_to_one` at amount 7,
currency `"EUR"`, balance 700. -/
theorem processWalletPayment_missing_rate_one_to_one_witness :
    walletAmountInUSD (.ok none) 7 "EUR" = .ok 7 ∧
    ((processWalletPayment ⟨some 100, .ok none, .ok true, none, none, none, "t1"⟩
        "u1" 7 none "EUR" 700 []).result.toOption.map (fun r => r.amount)) = some 7 ∧
    (convertAmount ⟨.ok none⟩ 7 "EUR" "USD").result =
      .error ("Exchange rate not found for " ++ "EUR" ++ " to " ++ "USD") :=
  ⟨processWalletPayment_missing_rate_one_to_one.1 7 "EUR" (by decide),
   processWalletPayment_missing_rate_one_to_one.2.1
     ⟨some 100, .ok none, .ok true, none, none, none, "t1"⟩ "u1" 7 none "EUR" 700 []
     (by decide) rfl rfl rfl rfl (by simp [jsRound_seven_hundred]),
   processWalletPayment_missing_rate_one_to_one.2.2 7 "EUR" "USD" (by decide)⟩

/-- C4: when the fetched profile has fewer points than `pointsNeeded`,
`processWalletPayment` returns the "Insufficient points" error naming both the
needed and the available counts, and mutates nothing: the balance and rows are
unchanged and no debit or insert call is issued. -/
theorem processWalletPayment_insufficient_points
    (env : WalletEnv) (uid : String) (amount : ℚ) (pid : Option String)
    (currency : String) (points0 : ℤ) (rows0 : List TxRow) (amountInUSD : ℚ)
    (hUSD : walletAmountInUSD env.rate amount currency = .ok amountInUSD)
    (hprof : env.profileRes = .ok true)
    (hpts : points0 < jsRound (amountInUSD * jsOrNum env.settingsConv 100)) :
    processWalletPayment env uid amount pid currency points0 rows0 =
      ⟨.error ("Insufficient points. You need " ++
          toString (jsRound (amountInUSD * jsOrNum env.settingsConv 100)) ++
          " points (" ++ toString points0 ++ " available)."),
        points0, rows0, []⟩ := by
  simp [processWalletPayment, hUSD, hprof, hpts]

/-- Witness for `processWalletPayment_insufficient_points` at amount 2 USD,
conversion 100, balance 50. -/
theorem processWalletPayment_insufficient_points_witness :
    processWalletPayment ⟨some 100, .ok none, .ok true, none, none, none, "t1"⟩
        "u1" 2 none "USD" 50 [] =
      ⟨.error ("Insufficient points. You need " ++
          toString (jsRound ((2 : ℚ) * jsOrNum (some 100) 100)) ++
          " points (" ++ toString (50 : ℤ) ++ " available)."),
        50, [], []⟩ :=
  processWalletPayment_insufficient_points
    ⟨some 100, .ok none, .ok true, none, none, none, "t1"⟩
    "u1" 2 none "USD" 50 [] 2 (by simp [walletAmountInUSD]) rfl
    (by simp [jsRound_two_hundred])

/-- C1 counterexample: an execution of `processWalletPayment` that reaches the
debit, whose transaction insert fails, and whose compensating credit call also
fails (its result is discarded at line 205): the final balance is 0, down from
200, with no transaction row persisted — the points stay reduced with neither
a completed row nor a restored balance, while the insert error is reported. -/
theorem processWalletPayment_failed_refund_leaves_debit :
    processWalletPayment
        ⟨some 100, .ok none, .ok true, none, some "insert failed", some "update failed", "t1"⟩
        "u1" 2 none "USD" 200 [] =
      ⟨.error "insert failed", 0,
        [], [.updatePoints (-200), .updatePoints 200]⟩ := by
  simp [processWalletPayment, walletAmountInUSD, jsRound_two_hundred]

/-- C1 (amended): when the transaction insert fails after a successful debit,
`processWalletPayment` issues a compensating credit of the same `pointsNeeded`
before reporting the insert error, and the result carries the insert error
message; when that credit call succeeds the original balance is restored (the
credit's own failure is not checked, so a failed credit can leave the points
debited). -/
theorem processWalletPayment_insert_failure_compensation
    (env : WalletEnv) (uid : String) (amount : ℚ) (pid : Option String)
    (currency : String) (points0 : ℤ) (rows0 : List TxRow) (amountInUSD : ℚ)
    (e : String)
    (hUSD : walletAmountInUSD env.rate amount currency = .ok amountInUSD)
    (hprof : env.profileRes = .ok true)
    (hpts : ¬ points0 < jsRound (amountInUSD * jsOrNum env.settingsConv 100))
    (hdebit : env.debitError = none)
    (hins : env.insertError = some e) :
    (processWalletPayment env uid amount pid currency points0 rows0).result = .error e ∧
    (processWalletPayment env uid amount pid currency points0 rows0).rows = rows0 ∧
    (processWalletPayment env uid amount pid currency points0 rows0).effs =
      [.updatePoints (-(jsRound (amountInUSD * jsOrNum env.settingsConv 100))),
       .updatePoints (jsRound (amountInUSD * jsOrNum env.settingsConv 100))] ∧
    (env.refundError = none →
      (processWalletPayment env uid amount pid currency points0 rows0).points = points0) := by
  refine ⟨?_, ?_, ?_, fun h => ?_⟩ <;>
    simp [processWalletPayment, hUSD, hprof, hpts, hdebit, hins, *]

/-- Witness for `processWalletPayment_insert_failure_compensation`: amount 2
USD, conversion 100, balance 200, failing insert, succeeding credit. -/
theorem processWalletPayment_insert_failure_compensation_witness :
    (processWalletPayment ⟨some 100, .ok none, .ok true, none, some "boom", none, "t1"⟩
        "u1" 2 none "USD" 200 []).result = .error "boom" ∧
    (processWalletPayment ⟨some 100, .ok none, .ok true, none, some "boom", none, "t1"⟩
        "u1" 2 none "USD" 200 []).rows = [] ∧
    (processWalletPayment ⟨some 100, .ok none, .ok true, none, some "boom", none, "t1"⟩
        "u1" 2 none "USD" 200 []).effs =
      [.updatePoints (-(jsRound ((2 : ℚ) * jsOrNum (some 100) 100))),
       .updatePoints (jsRound ((2 : ℚ) * jsOrNum (some 100) 100))] ∧
    ((⟨some 100, .ok none, .ok true, none, some "boom", none, "t1"⟩ : WalletEnv).refundError = none →
      (processWalletPayment ⟨some 100, .ok none, .ok true, none, some "boom", none, "t1"⟩
          "u1" 2 none "USD" 200 []).points = 200) :=
  processWalletPayment_insert_failure_compensation
    ⟨some 100, .ok none, .ok true, none, some "boom", none, "t1"⟩
    "u1" 2 none "USD" 200 [] 2 "boom" (by simp [walletAmountInUSD]) rfl
    (by simp [jsRound_two_hundred]) rfl rfl

/-- C2: on a zero-row update whose re-read finds the row already in a terminal
status, `updateTransactionStatus` returns success with that row; a call whose
update matched a row also succeeds (so two calls converging to the same
terminal status both succeed); and when neither store call itself errors, the
"Transaction not found" error arises only from a zero-row update whose re-read
finds no row or a row in a non-terminal status. -/
theorem updateTransactionStatus_terminal_idempotent
    (env env' : UpdateStatusEnv) (id status : String) (g : Option String)
    (tx tx' : TxRow) :
    (env.updResult = .ok [] → env.reread = .ok (some tx) → isTerminal tx.status = true →
      updateTransactionStatus env id status g = .ok tx) ∧
    (env'.updResult = .ok [tx'] →
      updateTransactionStatus env' id status g = .ok tx') ∧
    (∀ rows, env.updResult = .ok rows → ∀ rr, env.reread = .ok rr →
      updateTransactionStatus env id status g = .error "Transaction not found" →
      rows = [] ∧ (rr = none ∨ ∃ t, rr = some t ∧ isTerminal t.status = false)) := by
  refine ⟨?_, ?_, ?_⟩
  · intro h1 h2 h3
    simp [updateTransactionStatus, h1, h2, h3]
  · intro h
    simp [updateTransactionStatus, h]
  · intro rows h1 rr h2 hres
    cases rows with
    | nil =>
      cases rr with
      | none => exact ⟨rfl, .inl rfl⟩
      | some t =>
        by_cases ht : isTerminal t.status = true
        · simp [updateTransactionStatus, h1, h2, ht] at hres
        · exact ⟨rfl, .inr ⟨t, rfl, by simpa using ht⟩⟩
    | cons a l =>
      simp [updateTransactionStatus, h1] at hres

/-- Witness for `updateTransactionStatus_terminal_idempotent` on a concrete
completed row: the zero-row call and the matched call both succeed, and a
zero-row call whose re-read finds nothing reports "Transaction not found". -/
theorem updateTransactionStatus_terminal_idempotent_witness :
    updateTransactionStatus
        ⟨.ok [], .ok (some ⟨"t1", "u1", none, 5, "USD", 5, "USD", "wallet", "completed",
          none, none, []⟩)⟩ "t1" "completed" none =
      .ok ⟨"t1", "u1", none, 5, "USD", 5, "USD", "wallet", "completed", none, none, []⟩ ∧
    updateTransactionStatus
        ⟨.ok [⟨"t1", "u1", none, 5, "USD", 5, "USD", "wallet", "completed", none, none, []⟩],
          .ok none⟩ "t1" "completed" none =
      .ok ⟨"t1", "u1", none, 5, "USD", 5, "USD", "wallet", "completed", none, none, []⟩ ∧
    (([] : List TxRow) = [] ∧ ((none : Option TxRow) = none ∨
      ∃ t, (none : Option TxRow) = some t ∧ isTerminal t.status = false)) :=
  ⟨(updateTransactionStatus_terminal_idempotent
      ⟨.ok [], .ok (some ⟨"t1", "u1", none, 5, "USD", 5, "USD", "wallet", "completed",
        none, none, []⟩)⟩
      ⟨.ok [⟨"t1", "u1", none, 5, "USD", 5, "USD", "wallet", "completed", none, none, []⟩],
        .ok none⟩
      "t1" "completed" none
      ⟨"t1", "u1", none, 5, "USD", 5, "USD", "wallet", "completed", none, none, []⟩
      ⟨"t1", "u1", none, 5, "USD", 5, "USD", "wallet", "completed", none, none, []⟩).1
      rfl rfl rfl,
   (updateTransactionStatus_terminal_idempotent
      ⟨.ok [], .ok (some ⟨"t1", "u1", none, 5, "USD", 5, "USD", "wallet", "completed",
        none, none, []⟩)⟩
      ⟨.ok [⟨"t1", "u1", none, 5, "USD", 5, "USD", "wallet", "completed", none, none, []⟩],
        .ok none⟩
      "t1" "completed" none
      ⟨"t1", "u1", none, 5, "USD", 5, "USD", "wallet", "completed", none, none, []⟩
      ⟨"t1", "u1", none, 5, "USD", 5, "USD", "wallet", "completed", none, none, []⟩).2.1
      rfl,
   (updateTransactionStatus_terminal_idempotent
      ⟨.ok [], .ok none⟩
      ⟨.ok [], .ok none⟩ "t1" "completed" none
      ⟨"t1", "u1", none, 5, "USD", 5, "USD", "wallet", "completed", none, none, []⟩
      ⟨"t1", "u1", none, 5, "USD", 5, "USD", "wallet", "completed", none, none, []⟩).2.2
      [] rfl none rfl rfl⟩

/-- C3: evaluation of `createTransaction` at the failing input — request
amount 10 in `'EUR'`, user preferred currency `'USD'`, EUR→USD rate 2.  The
inserted row keeps the request values under `amount`/`currency` and puts the
converted value and the user's preferred currency under
`original_amount`/`original_currency` — so `original_*` does not preserve the
pre-conversion request values (10, `'EUR'`), contradicting the stated
invariant (lines 245-257; the local `originalCurrency` at line 235 is never
stored). -/
theorem createTransaction_converted_under_original_fields :
    ((createTransaction ⟨some "USD", some 2, none, "t1"⟩ "u1"
        ⟨10, some "EUR", "stripe", none, none⟩ []).2.toOption.map
      (fun r => (r.amount, r.currency, r.original_amount, r.original_currency)))
      = some (10, "EUR", 20, "USD") ∧ ("USD" : String) ≠ "EUR" := by
  have h2 : (10 : ℚ) * 2 = 20 := by norm_num
  constructor
  · simp [createTransaction, jsOrStr, h2]
    exact ⟨_, rfl, rfl, rfl, rfl, rfl⟩
  · decide

/-- C5 counterexample: `createTransaction` with request amount 10 in `'EUR'`
against a user preferred currency of `'USD'` and rate 3/2 stores the request
value 10 under `amount` and the converted value 15 under `original_amount` —
not the converted value under `amount` and the request value under
`original_amount` as claimed. -/
theorem createTransaction_request_under_amount_counterexample :
    ((createTransaction ⟨some "USD", some (3/2), none, "t2"⟩ "u1"
        ⟨10, some "EUR", "wallet", none, none⟩ []).2.toOption.map
      (fun r => (r.amount, r.original_amount))) = some (10, 15) ∧
    ((10 : ℚ) * (3/2) = 15) ∧ ¬ ((10 : ℚ) = 15) := by
  have h2 : (10 : ℚ) * (3/2) = 15 := by norm_num
  refine ⟨?_, h2, by norm_num⟩
  simp [createTransaction, jsOrStr, h2]
  exact ⟨_, rfl, rfl, rfl⟩

/-- C5 (amended): `createTransaction` always inserts in `pending` status with
the request amount under `amount` and the (defaulted) request currency under
`currency`; when the request currency differs from the user's preferred
currency and a rate is found, the amount converted into the user's preferred
currency is stored under `original_amount` and the user's preferred currency
under `original_currency` — both values are stored, the request one under
`amount` and the converted one under `original_amount`. -/
theorem createTransaction_pending_and_field_placement :
    (∀ (env : CreateTxEnv) (uid : String) (req : TxRequest) (rows0 : List TxRow),
      env.insertError = none →
      ∃ row, (createTransaction env uid req rows0).2 = .ok row ∧
        (createTransaction env uid req rows0).1 = rows0 ++ [row] ∧
        row.status = "pending" ∧ row.amount = req.amount ∧
        row.currency = jsOrStr req.currency "USD") ∧
    (∀ (env : CreateTxEnv) (uid : String) (req : TxRequest) (rows0 : List TxRow) (r : ℚ),
      env.insertError = none → env.rate = some r → ¬ r = 0 →
      ¬ jsOrStr req.currency "USD" = jsOrStr env.profileCurrency "USD" →
      ∃ row, (createTransaction env uid req rows0).2 = .ok row ∧
        row.original_amount = req.amount * r ∧
        row.original_currency = jsOrStr env.profileCurrency "USD") := by
  constructor
  · intro env uid req rows0 h
    simp only [createTransaction, h]
    exact ⟨_, rfl, rfl, rfl, rfl, rfl⟩
  · intro env uid req rows0 r h hr hr0 hdiff
    simp only [createTransaction, h, hr, if_neg hr0, if_pos hdiff]
    exact ⟨_, rfl, rfl, rfl⟩

/-- Witness for `createTransaction_pending_and_field_placement`: request
amount 10 in `'EUR'`, user preferred currency `'USD'`, rate 2. -/
theorem createTransaction_pending_and_field_placement_witness :
    (∃ row, (createTransaction ⟨some "USD", some 2, none, "t1"⟩ "u1"
        ⟨10, some "EUR", "wallet", none, none⟩ []).2 = .ok row ∧
      (createTransaction ⟨some "USD", some 2, none, "t1"⟩ "u1"
        ⟨10, some "EUR", "wallet", none, none⟩ []).1 = [] ++ [row] ∧
      row.status = "pending" ∧ row.amount = (10 : ℚ) ∧
      row.currency = jsOrStr (some "EUR") "USD") ∧
    (∃ row, (createTransaction ⟨some "USD", some 2, none, "t1"⟩ "u1"
        ⟨10, some "EUR", "wallet", none, none⟩ []).2 = .ok row ∧
      row.original_amount = (10 : ℚ) * 2 ∧
      row.original_currency = jsOrStr (some "USD") "USD") :=
  ⟨createTransaction_pending_and_field_placement.1
      ⟨some "USD", some 2, none, "t1"⟩ "u1" ⟨10, some "EUR", "wallet", none, none⟩ [] rfl,
   createTransaction_pending_and_field_placement.2
      ⟨some "USD", some 2, none, "t1"⟩ "u1" ⟨10, some "EUR", "wallet", none, none⟩ [] 2
      rfl rfl (by simp) (by decide)⟩

/-- C6: when the gateway-initiation HTTP call returns a non-OK status, or an
OK response missing the expected `clientSecret` / `authorizationUrl` field,
each of `initializeStripePayment` and `initializePaystackPayment` updates the
pending transaction it just created to status `failed` with the error text
recorded in its metadata, and returns that error instead of a success. -/
theorem gateway_initiation_failure_marks_failed
    (env : GatewayEnv) (uid : String) (amount : ℚ) (pid : Option String)
    (currency : String) (rows0 : List TxRow) (ef : Option String) (ref : String)
    (hins : env.ctx.insertError = none)
    (hfresh : ∀ r ∈ rows0, r.id ≠ env.ctx.newTxId) :
    (env.fetch = .notOk ef →
      failsMarked (initializeStripePayment env uid amount pid currency rows0) rows0
        env.ctx.newTxId (jsOrStr ef "Failed to create payment intent")) ∧
    (env.fetch = .ok none ref →
      failsMarked (initializeStripePayment env uid amount pid currency rows0) rows0
        env.ctx.newTxId "No client secret returned from payment intent creation") ∧
    (env.fetch = .notOk ef →
      failsMarked (initializePaystackPayment env uid amount pid currency rows0) rows0
        env.ctx.newTxId (jsOrStr ef "Failed to initialize Paystack payment")) ∧
    (env.fetch = .ok none ref →
      failsMarked (initializePaystackPayment env uid amount pid currency rows0) rows0
        env.ctx.newTxId "No authorization URL returned from Paystack") := by
  obtain ⟨rowS, hctS, hidS⟩ := createTransaction_insert_ok env.ctx uid
    { amount := gatewayAmount env.rate amount currency "USD"
      currency := some "USD"
      payment_method := "stripe"
      promoted_poll_id := pid
      metadata := some [("original_amount", .num amount),
                        ("original_currency", .str currency)] }
    rows0 hins
  obtain ⟨rowP, hctP, hidP⟩ := createTransaction_insert_ok env.ctx uid
    { amount := gatewayAmount env.rate amount currency "NGN"
      currency := some "NGN"
      payment_method := "paystack"
      promoted_poll_id := pid
      metadata := some [("original_amount", .num amount),
                        ("original_currency", .str currency)] }
    rows0 hins
  have hfreshS : ∀ r ∈ rows0, r.id ≠ rowS.id := fun r hr => by
    rw [hidS]; exact hfresh r hr
  have hfreshP : ∀ r ∈ rows0, r.id ≠ rowP.id := fun r hr => by
    rw [hidP]; exact hfresh r hr
  refine ⟨fun hf => ?_, fun hf => ?_, fun hf => ?_, fun hf => ?_⟩
  · have hrun : initializeStripePayment env uid amount pid currency rows0 =
        (markFailed (rows0 ++ [rowS]) rowS (jsOrStr ef "Failed to create payment intent"),
         .error (jsOrStr ef "Failed to create payment intent")) := by
      simp only [initializeStripePayment, hctS, hf]
    rw [hrun, ← hidS]
    exact failsMarked_of_markFailed rows0 rowS _ hfreshS
  · have hrun : initializeStripePayment env uid amount pid currency rows0 =
        (markFailed (rows0 ++ [rowS]) rowS
            "No client secret returned from payment intent creation",
         .error "No client secret returned from payment intent creation") := by
      simp only [initializeStripePayment, hctS, hf]
    rw [hrun, ← hidS]
    exact failsMarked_of_markFailed rows0 rowS _ hfreshS
  · have hrun : initializePaystackPayment env uid amount pid currency rows0 =
        (markFailed (rows0 ++ [rowP]) rowP (jsOrStr ef "Failed to initialize Paystack payment"),
         .error (jsOrStr ef "Failed to initialize Paystack payment")) := by
      simp only [initializePaystackPayment, hctP, hf]
    rw [hrun, ← hidP]
    exact failsMarked_of_markFailed rows0 rowP _ hfreshP
  · have hrun : initializePaystackPayment env uid amount pid currency rows0 =
        (markFailed (rows0 ++ [rowP]) rowP "No authorization URL returned from Paystack",
         .error "No authorization URL returned from Paystack") := by
      simp only [initializePaystackPayment, hctP, hf]
    rw [hrun, ← hidP]
    exact failsMarked_of_markFailed rows0 rowP _ hfreshP

/-- Witness for `gateway_initiation_failure_marks_failed`: a non-OK response
carrying "gateway down", and an OK response missing its secret/URL field. -/
theorem gateway_initiation_failure_marks_failed_witness :
    failsMarked (initializeStripePayment
        ⟨none, none, ⟨none, none, none, "t1"⟩, .notOk (some "gateway down")⟩
        "u1" 5 none "USD" []) [] "t1"
      (jsOrStr (some "gateway down") "Failed to create payment intent") ∧
    failsMarked (initializePaystackPayment
        ⟨none, none, ⟨none, none, none, "t1"⟩, .notOk (some "gateway down")⟩
        "u1" 5 none "NGN" []) [] "t1"
      (jsOrStr (some "gateway down") "Failed to initialize Paystack payment") ∧
    failsMarked (initializeStripePayment
        ⟨none, none, ⟨none, none, none, "t1"⟩, .ok none "ref1"⟩
        "u1" 5 none "USD" []) [] "t1"
      "No client secret returned from payment intent creation" ∧
    failsMarked (initializePaystackPayment
        ⟨none, none, ⟨none, none, none, "t1"⟩, .ok none "ref1"⟩
        "u1" 5 none "NGN" []) [] "t1"
      "No authorization URL returned from Paystack" :=
  ⟨(gateway_initiation_failure_marks_failed
      ⟨none, none, ⟨none, none, none, "t1"⟩, .notOk (some "gateway down")⟩
      "u1" 5 none "USD" [] (some "gateway down") "ref1" rfl (by simp)).1 rfl,
   (gateway_initiation_failure_marks_failed
      ⟨none, none, ⟨none, none, none, "t1"⟩, .notOk (some "gateway down")⟩
      "u1" 5 none "NGN" [] (some "gateway down") "ref1" rfl (by simp)).2.2.1 rfl,
   (gateway_initiation_failure_marks_failed
      ⟨none, none, ⟨none, none, none, "t1"⟩, .ok none "ref1"⟩
      "u1" 5 none "USD" [] (some "gateway down") "ref1" rfl (by simp)).2.1 rfl,
   (gateway_initiation_failure_marks_failed
      ⟨none, none, ⟨none, none, none, "t1"⟩, .ok none "ref1"⟩
      "u1" 5 none "NGN" [] (some "gateway down") "ref1" rfl (by simp)).2.2.2 rfl⟩

/-- C7: a successful `getAvailablePaymentMethods(country, currency)` call with
a (non-empty) currency returns exactly the country-enabled active methods
satisfying the spec's condition: `supported_currencies` declared and
containing the currency, or no `supported_currencies` but `default_currency`
equal to it, or neither declared.  (Configs declaring an empty-string
`default_currency` — which JavaScript truthiness would skip — are excluded by
hypothesis.) -/
theorem getAvailablePaymentMethods_currency_filter
    (env : AvailEnv) (country : Option String) (c : String)
    (enabledL : List String) (methods res : List PaymentMethod)
    (hc : ¬ c = "")
    (hwf : ∀ m ∈ methods, m.config.bind (fun cf => cf.default_currency) ≠ some "")
    (hen : env.enabled = .ok (some enabledL))
    (hall : env.allMethods = .ok methods)
    (hres : getAvailablePaymentMethods env country (some c) = .ok res) :
    ∀ m, m ∈ res ↔
      (m ∈ methods ∧ enabledL.contains m.type = true ∧ specSupportsCurrency c m) := by
  have hres2 : ((methods.filter fun m => enabledL.contains m.type).filter
      (supportsCurrency c)) = res := by
    simpa [getAvailablePaymentMethods, hen, hall, hc] using hres
  intro m
  rw [← hres2]
  simp only [List.mem_filter]
  constructor
  · rintro ⟨⟨hm, he⟩, hs⟩
    exact ⟨hm, he, (supportsCurrency_iff_spec c m (hwf m hm)).mp hs⟩
  · rintro ⟨hm, he, hs⟩
    exact ⟨⟨hm, he⟩, (supportsCurrency_iff_spec c m (hwf m hm)).mpr hs⟩

/-- Witness for `getAvailablePaymentMethods_currency_filter` with currency
`'EUR'`: a method declaring `supported_currencies = ["USD", "NGN"]` is
excluded and a method with no currency config is included. -/
theorem getAvailablePaymentMethods_currency_filter_witness :
    ((⟨"m2", "Wallet", "wallet", none⟩ : PaymentMethod) ∈
        ([⟨"m2", "Wallet", "wallet", none⟩] : List PaymentMethod) ↔
      ((⟨"m2", "Wallet", "wallet", none⟩ : PaymentMethod) ∈
          ([⟨"m1", "Stripe", "stripe", some ⟨some ["USD", "NGN"], none⟩⟩,
            ⟨"m2", "Wallet", "wallet", none⟩] : List PaymentMethod) ∧
        (["stripe", "wallet"].contains
          (⟨"m2", "Wallet", "wallet", none⟩ : PaymentMethod).type) = true ∧
        specSupportsCurrency "EUR" ⟨"m2", "Wallet", "wallet", none⟩)) ∧
    ((⟨"m1", "Stripe", "stripe", some ⟨some ["USD", "NGN"], none⟩⟩ : PaymentMethod) ∈
        ([⟨"m2", "Wallet", "wallet", none⟩] : List PaymentMethod) ↔
      ((⟨"m1", "Stripe", "stripe", some ⟨some ["USD", "NGN"], none⟩⟩ : PaymentMethod) ∈
          ([⟨"m1", "Stripe", "stripe", some ⟨some ["USD", "NGN"], none⟩⟩,
            ⟨"m2", "Wallet", "wallet", none⟩] : List PaymentMethod) ∧
        (["stripe", "wallet"].contains
          (⟨"m1", "Stripe", "stripe", some ⟨some ["USD", "NGN"], none⟩⟩ : PaymentMethod).type) = true ∧
        specSupportsCurrency "EUR" ⟨"m1", "Stripe", "stripe", some ⟨some ["USD", "NGN"], none⟩⟩)) :=
  ⟨getAvailablePaymentMethods_currency_filter
      ⟨.ok (some ["stripe", "wallet"]),
        .ok [⟨"m1", "Stripe", "stripe", some ⟨some ["USD", "NGN"], none⟩⟩,
             ⟨"m2", "Wallet", "wallet", none⟩]⟩
      none "EUR" ["stripe", "wallet"]
      [⟨"m1", "Stripe", "stripe", some ⟨some ["USD", "NGN"], none⟩⟩,
       ⟨"m2", "Wallet", "wallet", none⟩]
      [⟨"m2", "Wallet", "wallet", none⟩]
      (by decide) (by decide) rfl rfl (by decide)
      ⟨"m2", "Wallet", "wallet", none⟩,
   getAvailablePaymentMethods_currency_filter
      ⟨.ok (some ["stripe", "wallet"]),
        .ok [⟨"m1", "Stripe", "stripe", some ⟨some ["USD", "NGN"], none⟩⟩,
             ⟨"m2", "Wallet", "wallet", none⟩]⟩
      none "EUR" ["stripe", "wallet"]
      [⟨"m1", "Stripe", "stripe", some ⟨some ["USD", "NGN"], none⟩⟩,
       ⟨"m2", "Wallet", "wallet", none⟩]
      [⟨"m2", "Wallet", "wallet", none⟩]
      (by decide) (by decide) rfl rfl (by decide)
      ⟨"m1", "Stripe", "stripe", some ⟨some ["USD", "NGN"], none⟩⟩⟩

end PaymentService
